import Mathlib

/-!
Shallow embedding of the order-workflow core of the `fish` repository
(Django service, `apps/orders` + `core/enums`), together with theorems
checking the natural-language specification against it.

Modelling conventions:
* timestamps are natural numbers counting minutes, so
  `timedelta(minutes=d)` becomes `+ d`;
* Python `Decimal` money/quantity values become `Rat`;
* database rows visible to an operation are passed explicitly
  (lists of ids, lists of image records);
* fallible Python code (`raise ValueError`) becomes `Except String`;
* user-facing Vietnamese messages are abbreviated to short English tags,
  one distinct tag per distinct `raise` site.
-/

deriving instance DecidableEq for Except

namespace Fish

/-- `OrderStatus` from `core/enums/base_enum.py`: the ten workflow states. -/
inductive OrderStatus where
  | created
  | weighing
  | create_invoice
  | send_photo
  | payment
  | in_kitchen
  | processing
  | delivery
  | completed
  | failed
deriving DecidableEq, Fintype

/-- `OrderStatus.get_duration_minutes`: standard duration per state. -/
def OrderStatus.get_duration_minutes : OrderStatus → Nat
  | .created => 15
  | .weighing => 20
  | .create_invoice => 10
  | .send_photo => 10
  | .payment => 30
  | .in_kitchen => 60
  | .processing => 45
  | .delivery => 30
  | .completed => 0
  | .failed => 0

/-- `UserRole` from `core/enums/base_enum.py`. -/
inductive UserRole where
  | admin
  | manager
  | sale
  | weighing
  | kitchen
deriving DecidableEq, Fintype

/-- `UserRole.get_allowed_statuses`: the fixed status subset per role. -/
def UserRole.get_allowed_statuses : UserRole → List OrderStatus
  | .admin => [.created, .weighing, .create_invoice, .send_photo, .payment,
               .in_kitchen, .processing, .delivery, .completed, .failed]
  | .manager => [.created, .weighing, .create_invoice, .send_photo, .payment,
                 .in_kitchen, .processing, .delivery, .completed, .failed]
  | .sale => [.created, .weighing, .create_invoice, .send_photo, .payment]
  | .weighing => [.weighing, .create_invoice, .send_photo]
  | .kitchen => [.in_kitchen, .processing, .delivery, .completed]

/-- `UserRole.can_transition`: admin/manager always pass; other roles need
both endpoints inside their allowed subset. -/
def UserRole.can_transition (role : UserRole)
    (from_status to_status : OrderStatus) : Bool :=
  if role = .admin ∨ role = .manager then
    true
  else
    decide (from_status ∈ role.get_allowed_statuses) &&
      decide (to_status ∈ role.get_allowed_statuses)

/-- The `workflow_order` list from `OrderService._validate_status_transition`
(`failed` is deliberately absent: it is handled before the list is used). -/
def workflow_order : List OrderStatus :=
  [.created, .weighing, .create_invoice, .send_photo, .payment,
   .in_kitchen, .processing, .delivery, .completed]

def terminal_state_message : String := "cannot change status from terminal state"

def invalid_status_message : String := "invalid status"

def skip_message : String := "cannot skip status steps"

def completed_from_delivery_message : String :=
  "can only move to completed from delivery"

/-- `OrderService._validate_status_transition` from
`apps/orders/services/service_a.py`: terminal guard, always-allow `failed`,
workflow membership, the `payment -> delivery` skip, the one-step adjacency
test, and the completed-only-from-delivery rule, in source order. -/
def validate_status_transition
    (current_status new_status : OrderStatus) : Except String Unit :=
  if current_status = .completed ∨ current_status = .failed then
    .error terminal_state_message
  else if new_status = .failed then
    .ok ()
  else
    match workflow_order.findIdx? (· = current_status),
          workflow_order.findIdx? (· = new_status) with
    | some current_index, some new_index =>
      if current_status = .payment ∧ new_status = .delivery then
        .ok ()
      else if ((new_index : Int) - (current_index : Int)).natAbs ≠ 1 then
        .error skip_message
      else if new_status = .completed ∧ current_status ≠ .delivery then
        .error completed_from_delivery_message
      else
        .ok ()
    | _, _ => .error invalid_status_message

/-- `OrderImage.image_type` choices (`weighing` / `invoice` / `other`). -/
inductive ImageType where
  | weighing
  | invoice
  | other
deriving DecidableEq, Fintype

/-- The `Order` row, restricted to the fields the claims touch.
`activities` records the `activity_type` strings of the appended
`OrderActivity` rows, in order. -/
structure Order where
  order_number : String
  status : OrderStatus
  status_changed_at : Nat
  deadline : Option Nat
  delivery_time : Nat
  subtotal : Rat
  shipping_fee : Rat
  chip_fee : Rat
  total : Rat
  assigned_to : List Nat
  failure_reason : String
  notes : String
  images : List ImageType
  activities : List String
deriving DecidableEq

/-- `Order.update_status` from `apps/orders/models/order.py`: set the new
status and timestamp, recompute the deadline only when the new status has a
positive duration (the source has no else-branch clearing it), and store the
failure reason (`reason or ''`) when the new status is `failed`. -/
def Order.update_status (o : Order) (new_status : OrderStatus) (now : Nat)
    (reason : Option String) : Order :=
  let o1 : Order := { o with status := new_status, status_changed_at := now }
  let duration := new_status.get_duration_minutes
  let o2 : Order :=
    if 0 < duration then { o1 with deadline := some (now + duration) } else o1
  if new_status = .failed then
    { o2 with failure_reason := reason.getD "" }
  else
    o2

/-- `UpdateOrderStatusSchema` from `apps/orders/schemas/input_schema.py`. -/
structure UpdateOrderStatusSchema where
  new_status : OrderStatus
  failure_reason : Option String
deriving DecidableEq

def reason_required_message : String := "reason required when marking failed"

/-- Pydantic construction of `UpdateOrderStatusSchema`. The argument
`failure_reason` is `none` when the request body omits the field entirely
and `some v` when it supplies the value `v` (where `v = none` is an
explicit JSON null). The field is declared `Optional[str] = None` and its
`validate_failure_reason` validator carries no `always=True` /
`validate_default`, so pydantic runs it only on supplied values: an
omitted reason is accepted unchecked and defaults to null, while a
supplied falsy (null or empty) reason is rejected when the target status
is `failed`. -/
def mkUpdateOrderStatusSchema (new_status : OrderStatus)
    (failure_reason : Option (Option String)) :
    Except String UpdateOrderStatusSchema :=
  match failure_reason with
  | none => .ok ⟨new_status, none⟩
  | some v =>
    if new_status = .failed ∧ v.getD "" = "" then
      .error reason_required_message
    else
      .ok ⟨new_status, v⟩

/-- `OrderService._validate_transition_requirements` from
`apps/orders/services/service_a.py`. In the source every per-transition
branch (`created -> weighing`, `weighing -> create_invoice`, ...,
`delivery -> completed`) is a bare `pass`, with comments such as
"Optional: Check for weighing images"; the function never raises, so it
accepts every (order, target) pair. -/
def validate_transition_requirements (_order : Order)
    (_new_status : OrderStatus) : Except String Unit :=
  .ok ()

/-- `OrderService.update_order_status`: structural validation, requirement
validation, then the model-level update plus a `status_change` activity row. -/
def OrderService.update_order_status (o : Order)
    (sch : UpdateOrderStatusSchema) (now : Nat) : Except String Order :=
  match validate_status_transition o.status sch.new_status with
  | .error e => .error e
  | .ok () =>
    match validate_transition_requirements o sch.new_status with
    | .error e => .error e
    | .ok () =>
      let o1 := o.update_status sch.new_status now sch.failure_reason
      .ok { o1 with activities := o1.activities ++ ["status_change"] }

def forbidden_message : String := "role may not perform this transition"

/-- The `PATCH /{order_id}/status` handler from
`apps/orders/routers/router_a.py`: the payload schema is validated first
(by the framework), then `UserRole.can_transition` is checked against the
order's current status, then the service runs. -/
def router_update_order_status (role : UserRole) (o : Order)
    (new_status : OrderStatus) (failure_reason : Option (Option String))
    (now : Nat) : Except String Order :=
  match mkUpdateOrderStatusSchema new_status failure_reason with
  | .error e => .error e
  | .ok sch =>
    if role.can_transition o.status sch.new_status then
      OrderService.update_order_status o sch now
    else
      .error forbidden_message

/-- `ProductItemInput` from `apps/orders/schemas/input_schema.py`. -/
structure ProductItemInput where
  product_name : String
  quantity : Rat
  unit : String
  price : Rat
deriving DecidableEq

/-- `CreateOrderSchema`, restricted to the fields used by the claims. -/
structure CreateOrderSchema where
  customer_name : String
  items : List ProductItemInput
  shipping_fee : Rat
  chip_fee : Rat
  delivery_time : Nat
  assigned_to_ids : List Nat
  notes : String
deriving DecidableEq

/-- `OrderService.create_order`: subtotal as the sum over items of
quantity * price, total as subtotal + fees, status `created` with its
15-minute deadline, assignees set, and a `created` activity row. -/
def OrderService.create_order (data : CreateOrderSchema) (number : String)
    (now : Nat) : Order :=
  let subtotal := (data.items.map fun it => it.quantity * it.price).sum
  let total := subtotal + data.shipping_fee + data.chip_fee
  let duration := OrderStatus.get_duration_minutes .created
  { order_number := number
    status := .created
    status_changed_at := now
    deadline := some (now + duration)
    delivery_time := data.delivery_time
    subtotal := subtotal
    shipping_fee := data.shipping_fee
    chip_fee := data.chip_fee
    total := total
    assigned_to := data.assigned_to_ids
    failure_reason := ""
    notes := data.notes
    images := []
    activities := ["created"] }

def invalid_user_ids_message : String := "One or more user IDs are invalid"

def create_activity_error_message : String :=
  "AttributeError: OrderRepository has no attribute create_activity"

/-- `OrderService.update_assigned_users`: `db_user_ids` are the ids present
in the users table (a set of primary keys); the lookup
`UserModel.objects.filter(id__in=user_ids)` returns each matching row
once, modelled as `db_user_ids.filter (· ∈ user_ids)`. The service raises
`ValueError` when the row count differs from the request length. On the
other branch it sets the assignees and then calls
`self.repository.create_activity(...)` — a method `OrderRepository`
(`repository_a.py`) does not define — so that path raises
`AttributeError` and the surrounding `@transaction.atomic` rolls the
assignment back: the operation's net effect is an error with no mutation. -/
def OrderService.update_assigned_users (db_user_ids : List Nat)
    (_order : Order) (user_ids : List Nat) : Except String Order :=
  let users := db_user_ids.filter fun id => decide (id ∈ user_ids)
  if users.length ≠ user_ids.length then
    .error invalid_user_ids_message
  else
    .error create_activity_error_message

/-- `OrderService.upload_order_image`: attach an image record and append an
`image_uploaded` activity row. -/
def OrderService.upload_order_image (o : Order) (image_type : ImageType) :
    Order :=
  { o with images := o.images ++ [image_type],
           activities := o.activities ++ ["image_uploaded"] }

/-- Zero-padded 4-digit rendering (`f"{n:04d}"`); every call site in the
source passes a value below 10000 (`random.randint(0, 9999)` or a value
reduced `% 10000`). -/
def pad4 (n : Nat) : String :=
  String.mk [Char.ofNat (48 + n / 1000 % 10), Char.ofNat (48 + n / 100 % 10),
             Char.ofNat (48 + n / 10 % 10), Char.ofNat (48 + n % 10)]

/-- The random-retry loop of `generate_order_number`
(`apps/orders/models/order.py`): walk the drawn suffixes, returning the
first one whose full number is not already taken. Equality of two full
numbers with the same day-prefix is equality of their suffixes, so the
existence check is membership in the used-suffix set for the day. -/
def try_random_suffixes : List Nat → List Nat → Option Nat
  | [], _ => none
  | d :: ds, existing =>
    if d ∈ existing then try_random_suffixes ds existing else some d

/-- The sequential fallback of `generate_order_number`: numbers for one day
all share a 10-character prefix and carry zero-padded 4-digit suffixes, so
the lexicographically greatest number (`order_by('-order_number').first()`)
carries the numerically greatest suffix; `int(last[-4:])` recovers it. -/
def fallback_suffix (existing : List Nat) : Nat :=
  match existing.max? with
  | some last_seq => (last_seq + 1) % 10000
  | none => 1

/-- The suffix `generate_order_number` settles on: the first fresh draw
among (at most) 10, else the sequential fallback. -/
def generated_suffix (existing draws : List Nat) : Nat :=
  match try_random_suffixes (draws.take 10) existing with
  | some d => d
  | none => fallback_suffix existing

/-- `generate_order_number`: `DH` + 8-digit date + 4-digit suffix, with
`existing` the suffixes already used under today's prefix and `draws` the
stream of `random.randint(0, 9999)` outcomes. -/
def generate_order_number (day : String) (existing draws : List Nat) :
    String :=
  "DH" ++ day ++ pad4 (generated_suffix existing draws)

/-! ### Concrete sample data used by witnesses and counterexamples -/

/-- A concrete order sitting in the `weighing` state with no uploaded
images. -/
def sample_weighing_order : Order :=
  { order_number := "DH202501010001"
    status := .weighing
    status_changed_at := 0
    deadline := some 20
    delivery_time := 120
    subtotal := 250000
    shipping_fee := 20000
    chip_fee := 10000
    total := 280000
    assigned_to := []
    failure_reason := ""
    notes := ""
    images := []
    activities := ["created"] }

/-- A concrete order in the `delivery` state carrying a deadline. -/
def sample_delivery_order : Order :=
  { sample_weighing_order with status := .delivery, deadline := some 100 }

/-- A concrete order already in the terminal `completed` state. -/
def sample_completed_order : Order :=
  { sample_weighing_order with status := .completed }

/-- The creation payload of the specification scenario: two items
(2 x 100000 and 1 x 50000), shipping fee 20000, chip fee 10000. -/
def sample_create_data : CreateOrderSchema :=
  { customer_name := "Nguyen Van A"
    items := [⟨"ca loc", 2, "kg", 100000⟩, ⟨"tom su", 1, "kg", 50000⟩]
    shipping_fee := 20000
    chip_fee := 10000
    delivery_time := 480
    assigned_to_ids := []
    notes := "" }

/-! ### Helper lemmas -/

/-- `Order.update_status` always installs the requested status. -/
theorem update_status_status (o : Order) (n : OrderStatus) (now : Nat)
    (r : Option String) : (o.update_status n now r).status = n := by
  simp only [Order.update_status]
  split <;> split <;> rfl

/-- `Order.update_status` recomputes the deadline only for positive
durations and otherwise leaves the stored deadline untouched. -/
theorem update_status_deadline (o : Order) (n : OrderStatus) (now : Nat)
    (r : Option String) : (o.update_status n now r).deadline =
      if 0 < n.get_duration_minutes then some (now + n.get_duration_minutes)
      else o.deadline := by
  simp only [Order.update_status]
  split <;> split <;> rfl

/-- The terminal-state guard: from `completed` or `failed` the structural
validator rejects every requested status. -/
theorem terminal_rejects : ∀ current new_status : OrderStatus,
    (current = .completed ∨ current = .failed) →
    validate_status_transition current new_status =
      .error terminal_state_message := by
  decide

/-- When the structural validator accepts, the service-level status update
succeeds and installs the requested status (the requirements validator
never objects). -/
theorem update_ok_of_validate_ok (o : Order) (n : OrderStatus)
    (r : Option String) (now : Nat)
    (hv : validate_status_transition o.status n = .ok ()) :
    (OrderService.update_order_status o ⟨n, r⟩ now).toOption.map
      Order.status = some n := by
  unfold OrderService.update_order_status
  dsimp only
  rw [hv]
  dsimp only [validate_transition_requirements, Except.toOption, Option.map]
  rw [update_status_status]

/-- The retry loop returns the first drawn suffix that is still free, and
returns nothing exactly when every draw is already used. -/
theorem try_random_suffixes_spec (ds existing : List Nat) :
    (∃ d, try_random_suffixes ds existing = some d ∧ d ∉ existing ∧ d ∈ ds) ∨
    (try_random_suffixes ds existing = none ∧ ∀ d ∈ ds, d ∈ existing) := by
  induction ds with
  | nil => exact Or.inr ⟨rfl, by simp⟩
  | cons d ds ih =>
    by_cases hd : d ∈ existing
    · rcases ih with ⟨e, he, hne, hmem⟩ | ⟨hn, hall⟩
      · exact Or.inl ⟨e, by simp [try_random_suffixes, hd, he], hne,
          List.mem_cons_of_mem _ hmem⟩
      · refine Or.inr ⟨by simp [try_random_suffixes, hd, hn], ?_⟩
        intro x hx
        rcases List.mem_cons.mp hx with hx | hx
        · exact hx ▸ hd
        · exact hall x hx
    · exact Or.inl ⟨d, by simp [try_random_suffixes, hd], hd,
        List.mem_cons_self d ds⟩

/-! ### Claim theorems -/

/-- Claim C1, counterexample: an order in the `weighing` state with zero
weighing-type evidence records is moved to `create_invoice` successfully —
the claimed rejection for missing weighing evidence does not happen. -/
theorem c1_evidence_gate_counterexample :
    sample_weighing_order.status = .weighing ∧
    sample_weighing_order.images.count .weighing = 0 ∧
    (OrderService.update_order_status sample_weighing_order
        ⟨.create_invoice, none⟩ 30).isOk = true := by
  exact ⟨rfl, rfl, rfl⟩

/-- Claim C1, amended: the service enforces no evidence precondition —
`_validate_transition_requirements` accepts every (order, target) pair, so
`weighing -> create_invoice` succeeds through the service regardless of the
order's weighing-type evidence records, and `create_invoice -> send_photo`
succeeds regardless of invoice-type evidence records. -/
theorem c1_no_evidence_requirement (o : Order) (now : Nat) :
    (∀ (p : Order) (s : OrderStatus),
      validate_transition_requirements p s = .ok ()) ∧
    (o.status = .weighing →
      (OrderService.update_order_status o ⟨.create_invoice, none⟩
          now).toOption.map Order.status = some .create_invoice) ∧
    (o.status = .create_invoice →
      (OrderService.update_order_status o ⟨.send_photo, none⟩
          now).toOption.map Order.status = some .send_photo) := by
  refine ⟨fun p s => rfl, fun hw => ?_, fun hc => ?_⟩
  · exact update_ok_of_validate_ok o .create_invoice none now
      (by rw [hw]; decide)
  · exact update_ok_of_validate_ok o .send_photo none now
      (by rw [hc]; decide)

/-- Claim C1, witness for the amended theorem, instantiated on a concrete
`weighing`-state order with no evidence records. -/
theorem c1_no_evidence_requirement_witness :
    (OrderService.update_order_status sample_weighing_order
        ⟨.create_invoice, none⟩ 30).toOption.map Order.status =
      some .create_invoice :=
  (c1_no_evidence_requirement sample_weighing_order 30).2.1 rfl

/-- Claim C2, counterexample: the structural validator accepts the direct
transition `payment -> in_kitchen` (they are adjacent in the code's
workflow list), contradicting the claimed rejection. -/
theorem c2_payment_in_kitchen_counterexample :
    validate_status_transition .payment .in_kitchen = .ok () := by decide

/-- Claim C2, amended: the structural adjacency check accepts
`payment -> in_kitchen` (one step forward in the workflow order), accepts
`payment -> delivery` (the explicit allowed skip), and rejects
`created -> processing` because it moves more than one step. -/
theorem c2_adjacency_check :
    validate_status_transition .payment .in_kitchen = .ok () ∧
    validate_status_transition .payment .delivery = .ok () ∧
    validate_status_transition .created .processing =
      .error skip_message := by
  decide

/-- Claim C3, counterexample: moving a `delivery` order carrying deadline
100 to `completed` (duration 0) keeps deadline 100 — the deadline is not
cleared as claimed. -/
theorem c3_deadline_not_cleared_counterexample :
    OrderStatus.get_duration_minutes .completed = 0 ∧
    sample_delivery_order.deadline = some 100 ∧
    (sample_delivery_order.update_status .completed 500 none).deadline =
      some 100 := by
  exact ⟨rfl, rfl, rfl⟩

/-- Claim C3, amended: the status update sets
deadline = status_changed_at + duration(new_status) when the new status has
positive standard duration, and when the new status has duration 0 — in
particular on every transition into `completed` or `failed` — it leaves the
previously stored deadline unchanged (it does not clear it). -/
theorem c3_deadline_recompute (o : Order) (new_status : OrderStatus)
    (now : Nat) (reason : Option String) :
    (0 < new_status.get_duration_minutes →
      (o.update_status new_status now reason).deadline =
        some (now + new_status.get_duration_minutes)) ∧
    (new_status.get_duration_minutes = 0 →
      (o.update_status new_status now reason).deadline = o.deadline) ∧
    ((new_status = .completed ∨ new_status = .failed) →
      (o.update_status new_status now reason).deadline = o.deadline) := by
  refine ⟨fun h => ?_, fun h => ?_, fun h => ?_⟩
  · rw [update_status_deadline, if_pos h]
  · rw [update_status_deadline, if_neg (by omega)]
  · have h0 : new_status.get_duration_minutes = 0 := by
      rcases h with h | h <;> subst h <;> rfl
    rw [update_status_deadline, if_neg (by omega)]

/-- Claim C3, witness: a concrete transition into `completed` leaves the
order's deadline unchanged. -/
theorem c3_deadline_recompute_witness :
    (sample_delivery_order.update_status .completed 500 none).deadline =
      sample_delivery_order.deadline :=
  (c3_deadline_recompute sample_delivery_order .completed 500 none).2.2
    (Or.inl rfl)

/-- Claim C4: once an order's status is `completed` or `failed`, the
structural validator rejects every requested target with the terminal-state
message (its first check), and the full status-update endpoint fails for
every role, target status, reason and time — the order never leaves the
terminal state. -/
theorem c4_terminal_guard :
    (∀ current new_status : OrderStatus,
      (current = .completed ∨ current = .failed) →
      validate_status_transition current new_status =
        .error terminal_state_message) ∧
    (∀ (role : UserRole) (o : Order) (new_status : OrderStatus)
      (reason : Option (Option String)) (now : Nat),
      (o.status = .completed ∨ o.status = .failed) →
      (router_update_order_status role o new_status reason now).isOk =
        false) := by
  refine ⟨terminal_rejects, ?_⟩
  intro role o new_status reason now h
  unfold router_update_order_status
  cases hm : mkUpdateOrderStatusSchema new_status reason with
  | error e => rfl
  | ok sch =>
    dsimp only
    split
    · unfold OrderService.update_order_status
      rw [terminal_rejects o.status sch.new_status h]
      rfl
    · rfl

/-- Claim C4, witness: a concrete `completed` order rejects a transition to
`delivery` even for the admin role. -/
theorem c4_terminal_guard_witness :
    validate_status_transition .completed .delivery =
      .error terminal_state_message ∧
    (router_update_order_status .admin sample_completed_order .delivery
        none 600).isOk = false :=
  ⟨c4_terminal_guard.1 .completed .delivery (Or.inl rfl),
   c4_terminal_guard.2 .admin sample_completed_order .delivery none 600
     (Or.inl rfl)⟩

/-- Claim C5: the assignment update does reject an unknown staff id with a
validation error, but its valid-input branch never succeeds — the service
then calls `self.repository.create_activity`, which `OrderRepository` does
not define, so the path raises `AttributeError` and the atomic transaction
rolls the assignment back. Evaluated at the failing input (staff table
`[7, 8]`, request `[8]` whose id exists): the operation errors instead of
replacing the assignee set and appending an ActivityEntry; in general no
input makes it succeed. -/
theorem c5_missing_create_activity :
    ((8 : Nat) ∈ [7, 8] ∧
      OrderService.update_assigned_users [7, 8] sample_weighing_order [8] =
        .error create_activity_error_message) ∧
    OrderService.update_assigned_users [7, 8] sample_weighing_order [9] =
      .error invalid_user_ids_message ∧
    (∀ (db_user_ids : List Nat) (o : Order) (user_ids : List Nat),
      (OrderService.update_assigned_users db_user_ids o user_ids).isOk =
        false) := by
  refine ⟨⟨by decide, rfl⟩, rfl, ?_⟩
  intro db_user_ids o user_ids
  unfold OrderService.update_assigned_users
  dsimp only
  split <;> rfl

/-- Claim C6, counterexample: with day suffixes 0 and 9999 already used and
all ten random draws colliding (all equal to 9999), the sequential fallback
wraps 9999 to 0 and returns the number with suffix 0 — which is already
taken, so two same-day orders can receive the same order number. -/
theorem c6_wraparound_counterexample :
    generate_order_number "20250101" [0, 9999] (List.replicate 10 9999) =
      "DH202501010000" ∧
    "DH" ++ "20250101" ++ pad4 0 = "DH202501010000" ∧
    (0 : Nat) ∈ [0, 9999] := by
  exact ⟨by decide, by decide, by decide⟩

/-- Claim C6, amended: order-number generation returns
`DH` + date + 4-character zero-padded suffix; the suffix is the first of
at most 10 random draws not already used, and only when every draw
collides does it fall back to the day's last used suffix plus one, wrapping
at 9999. The scheme does not guarantee same-day uniqueness: the wrapped
fallback can land on a suffix that is still in use. -/
theorem c6_generation_scheme (day : String) (existing draws : List Nat) :
    generate_order_number day existing draws =
      "DH" ++ day ++ pad4 (generated_suffix existing draws) ∧
    (pad4 (generated_suffix existing draws)).length = 4 ∧
    ((generated_suffix existing draws ∉ existing ∧
        generated_suffix existing draws ∈ draws.take 10) ∨
      ((∀ d ∈ draws.take 10, d ∈ existing) ∧
        generated_suffix existing draws = fallback_suffix existing)) ∧
    fallback_suffix [] = 1 ∧
    (∀ last_seq, existing.max? = some last_seq →
      fallback_suffix existing = (last_seq + 1) % 10000) := by
  refine ⟨rfl, rfl, ?_, rfl, ?_⟩
  · rcases try_random_suffixes_spec (draws.take 10) existing with
      ⟨d, hd, hne, hmem⟩ | ⟨hn, hall⟩
    · left
      unfold generated_suffix
      rw [hd]
      exact ⟨hne, hmem⟩
    · right
      unfold generated_suffix
      rw [hn]
      exact ⟨hall, rfl⟩
  · intro last_seq hseq
    unfold fallback_suffix
    rw [hseq]

/-- Claim C6, witness: the sequential fallback after last suffix 5 is 6. -/
theorem c6_generation_scheme_witness :
    fallback_suffix [5] = (5 + 1) % 10000 :=
  (c6_generation_scheme "20250101" [5] []).2.2.2.2 5 rfl

/-- Claim C7: pydantic does not run `validate_failure_reason` when the
`failure_reason` field is omitted from the request body, so a payload
targeting `failed` with the reason absent is accepted — the endpoint (here
for the admin role on a `weighing` order) succeeds and stores
`failure_reason = ""` on a `failed` order, refuting both the
absent-is-rejected half of the claim and the non-empty-iff-failed
invariant. A supplied null or empty reason is rejected as the claim
says. -/
theorem c7_absent_reason_accepted :
    mkUpdateOrderStatusSchema .failed none = .ok ⟨.failed, none⟩ ∧
    mkUpdateOrderStatusSchema .failed (some none) =
      .error reason_required_message ∧
    mkUpdateOrderStatusSchema .failed (some (some "")) =
      .error reason_required_message ∧
    (router_update_order_status .admin sample_weighing_order .failed none
        30).toOption.map (fun o => (o.status, o.failure_reason)) =
      some (.failed, "") := by
  exact ⟨rfl, rfl, rfl, rfl⟩

/-- Claim C8: `can_transition` returns true on every status pair for admin
and manager; for every other role it returns true exactly when both
endpoints lie in that role's allowed subset; the weighing role's request
`created -> weighing` fails the role check while the sale role's same
request passes it. -/
theorem c8_role_transition_check :
    (∀ f t : OrderStatus, UserRole.can_transition .admin f t = true ∧
      UserRole.can_transition .manager f t = true) ∧
    (∀ (r : UserRole) (f t : OrderStatus), r ≠ .admin → r ≠ .manager →
      (UserRole.can_transition r f t = true ↔
        f ∈ r.get_allowed_statuses ∧ t ∈ r.get_allowed_statuses)) ∧
    UserRole.can_transition .weighing .created .weighing = false ∧
    UserRole.can_transition .sale .created .weighing = true := by
  refine ⟨by decide, by decide, by decide, by decide⟩

/-- Claim C8, witness: the kitchen role's check for
`in_kitchen -> processing` is equivalent to both states lying in its
allowed subset. -/
theorem c8_role_transition_check_witness :
    UserRole.can_transition .kitchen .in_kitchen .processing = true ↔
      (OrderStatus.in_kitchen ∈ UserRole.get_allowed_statuses .kitchen ∧
        OrderStatus.processing ∈ UserRole.get_allowed_statuses .kitchen) :=
  c8_role_transition_check.2.1 .kitchen .in_kitchen .processing
    (by decide) (by decide)

/-- Claim C9: the creation scenario with items (2 x 100000, 1 x 50000),
shipping fee 20000 and chip fee 10000 yields subtotal 250000, total 280000,
status `created` and deadline = creation time + 15; in general a created
order satisfies subtotal = sum of quantity * price over its items, total =
subtotal + shipping_fee + chip_fee, status `created` and deadline =
creation time + 15 minutes. -/
theorem c9_create_order_totals :
    ((OrderService.create_order sample_create_data "DH202501010001"
        0).subtotal = 250000 ∧
      (OrderService.create_order sample_create_data "DH202501010001"
          0).total = 280000 ∧
      (OrderService.create_order sample_create_data "DH202501010001"
          0).status = .created ∧
      (OrderService.create_order sample_create_data "DH202501010001"
          0).deadline = some 15) ∧
    (∀ (data : CreateOrderSchema) (number : String) (now : Nat),
      (OrderService.create_order data number now).subtotal =
        (data.items.map fun it => it.quantity * it.price).sum ∧
      (OrderService.create_order data number now).total =
        (OrderService.create_order data number now).subtotal +
          data.shipping_fee + data.chip_fee ∧
      (OrderService.create_order data number now).status = .created ∧
      (OrderService.create_order data number now).deadline =
        some (now + 15)) := by
  refine ⟨⟨?_, ?_, rfl, rfl⟩, fun data number now => ⟨rfl, rfl, rfl, rfl⟩⟩ <;>
    norm_num [OrderService.create_order, sample_create_data]

/-- Claim C10: `failed` is in no non-admin/non-manager role's allowed
subset, so for every such role and every current status the role check for
a transition targeting `failed` returns false, while the structural
validator itself allows `failed` from every non-terminal state and the
admin and manager roles pass the role check for it. -/
theorem c10_failed_only_admin_manager :
    (∀ r : UserRole, r ≠ .admin → r ≠ .manager →
      OrderStatus.failed ∉ r.get_allowed_statuses) ∧
    (∀ (r : UserRole) (f : OrderStatus), r ≠ .admin → r ≠ .manager →
      UserRole.can_transition r f .failed = false) ∧
    (∀ c : OrderStatus, c ≠ .completed → c ≠ .failed →
      validate_status_transition c .failed = .ok ()) ∧
    (∀ f : OrderStatus, UserRole.can_transition .admin f .failed = true ∧
      UserRole.can_transition .manager f .failed = true) := by
  refine ⟨by decide, by decide, by decide, by decide⟩

/-- Claim C10, witness: the sale role cannot mark a freshly created order
as failed. -/
theorem c10_failed_only_admin_manager_witness :
    UserRole.can_transition .sale .created .failed = false :=
  c10_failed_only_admin_manager.2.1 .sale .created (by decide) (by decide)

end Fish
